import Mathlib

/-!
Verification of the SCSI host lifecycle core (`drivers/scsi/hosts.c`):
the host state machine (`scsi_host_set_state`), host publication
(`scsi_add_host_with_dma`), removal (`scsi_remove_host`), allocation
(`scsi_host_alloc`, including the `eh_deadline` module-tunable
conversion), reference acquisition (`scsi_host_get`) and the per-host
work-queue facade (`scsi_queue_work` / `scsi_flush_work`).

External collaborators (device model, block-layer tag pools, kthreads,
work queues, sysfs/proc) are modelled by boolean/error-code outcomes in
an environment record, and by acquire/release flags and reference
counters on the host record.  Error constants follow the kernel:
`-EINVAL = -22`, `-ENOMEM = -12`.
-/

/-- The seven host states of `enum scsi_host_state`. -/
inductive ShostState where
  | SHOST_CREATED
  | SHOST_RUNNING
  | SHOST_CANCEL
  | SHOST_DEL
  | SHOST_RECOVERY
  | SHOST_CANCEL_RECOVERY
  | SHOST_DEL_RECOVERY
deriving DecidableEq, Repr, Fintype

open ShostState

/-- The host record (`struct Scsi_Host`), restricted to the fields the
lifecycle core reads or writes.  Owned resources and external
registrations are booleans (held / not held); device reference counts
are naturals. -/
structure ScsiHost where
  shost_state : ShostState
  host_no : Nat
  can_queue : Int
  eh_deadline : Int
  use_blk_mq : Bool
  transportt_host_size : Nat
  transportt_create_work_queue : Bool
  ehandler : Bool
  tmf_work_q : Bool
  bqt : Bool
  mq_tags : Bool
  freelist : Bool
  gendev_registered : Bool
  dev_registered : Bool
  shost_data : Bool
  work_q : Bool
  sysfs_added : Bool
  proc_added : Bool
  pm_active : Bool
  gendev_ref : Nat
  dev_ref : Nat
  parent_ref : Nat
deriving DecidableEq, Repr

/-- Macro `shost_use_blk_mq(shost)` — reads the `use_blk_mq` flag. -/
def shost_use_blk_mq (shost : ScsiHost) : Bool := shost.use_blk_mq

/-- Function `scsi_host_set_state` (hosts.c:66-150): no-op success when the target
equals the current state; otherwise the nested-switch transition check.
Returns the C return value (`0` or `-EINVAL`) together with the updated
record. -/
def scsi_host_set_state (shost : ScsiHost) (state : ShostState) : Int × ScsiHost :=
  let oldstate := shost.shost_state
  if state = oldstate then (0, shost)
  else
    match state, oldstate with
    | SHOST_CREATED, _ => (-22, shost)
    | SHOST_RUNNING, SHOST_CREATED
    | SHOST_RUNNING, SHOST_RECOVERY => (0, { shost with shost_state := state })
    | SHOST_RUNNING, _ => (-22, shost)
    | SHOST_RECOVERY, SHOST_RUNNING => (0, { shost with shost_state := state })
    | SHOST_RECOVERY, _ => (-22, shost)
    | SHOST_CANCEL, SHOST_CREATED
    | SHOST_CANCEL, SHOST_RUNNING
    | SHOST_CANCEL, SHOST_CANCEL_RECOVERY => (0, { shost with shost_state := state })
    | SHOST_CANCEL, _ => (-22, shost)
    | SHOST_DEL, SHOST_CANCEL
    | SHOST_DEL, SHOST_DEL_RECOVERY => (0, { shost with shost_state := state })
    | SHOST_DEL, _ => (-22, shost)
    | SHOST_CANCEL_RECOVERY, SHOST_CANCEL
    | SHOST_CANCEL_RECOVERY, SHOST_RECOVERY => (0, { shost with shost_state := state })
    | SHOST_CANCEL_RECOVERY, _ => (-22, shost)
    | SHOST_DEL_RECOVERY, SHOST_CANCEL_RECOVERY => (0, { shost with shost_state := state })
    | SHOST_DEL_RECOVERY, _ => (-22, shost)

/-- The (source, target) transition table as enumerated by the
specification (§4.1). -/
def legalPairs : List (ShostState × ShostState) :=
  [(SHOST_CREATED, SHOST_RUNNING), (SHOST_RECOVERY, SHOST_RUNNING),
   (SHOST_RUNNING, SHOST_RECOVERY),
   (SHOST_CREATED, SHOST_CANCEL), (SHOST_RUNNING, SHOST_CANCEL),
   (SHOST_CANCEL_RECOVERY, SHOST_CANCEL),
   (SHOST_CANCEL, SHOST_DEL), (SHOST_DEL_RECOVERY, SHOST_DEL),
   (SHOST_CANCEL, SHOST_CANCEL_RECOVERY), (SHOST_RECOVERY, SHOST_CANCEL_RECOVERY),
   (SHOST_CANCEL_RECOVERY, SHOST_DEL_RECOVERY)]

/-- A host record with a given state and fixed, post-allocation default
values for every other field. -/
def hostWithState (s : ShostState) : ScsiHost :=
  { shost_state := s, host_no := 0, can_queue := 1, eh_deadline := -1,
    use_blk_mq := false, transportt_host_size := 0,
    transportt_create_work_queue := false,
    ehandler := true, tmf_work_q := true, bqt := false, mq_tags := false,
    freelist := false, gendev_registered := false, dev_registered := false,
    shost_data := false, work_q := false, sysfs_added := false,
    proc_added := false, pm_active := false,
    gendev_ref := 1, dev_ref := 1, parent_ref := 0 }

/-- One strict, legal state change: `scsi_host_set_state` succeeds and the
state actually changes.  Used to model transitions interleaved by other
threads between the two phases of removal. -/
def StrictStep (s t : ShostState) : Prop :=
  s ≠ t ∧ (scsi_host_set_state (hostWithState s) t).1 = 0

instance (s t : ShostState) : Decidable (StrictStep s t) :=
  inferInstanceAs (Decidable (s ≠ t ∧ (scsi_host_set_state (hostWithState s) t).1 = 0))

/-- States reachable from `s` by any sequence of legal transitions. -/
def ReachableFrom (s t : ShostState) : Prop :=
  Relation.ReflTransGen StrictStep s t

/-- Call `get_device(&shost->shost_gendev)`: increments the primary device
reference and always succeeds for a live device. -/
def get_device_gendev (shost : ScsiHost) : ScsiHost × Bool :=
  ({ shost with gendev_ref := shost.gendev_ref + 1 }, true)

/-- Function `scsi_host_get` (hosts.c:583-589): `NULL` (here `false`) when the host
is already `SHOST_DEL`, otherwise takes a device reference and returns
the host. -/
def scsi_host_get (shost : ScsiHost) : ScsiHost × Bool :=
  if shost.shost_state = SHOST_DEL then (shost, false)
  else
    let gd := get_device_gendev shost
    if gd.2 = false then (gd.1, false)
    else (gd.1, true)

/-- Function `scsi_queue_work` (hosts.c:628-640).  `work_pending` abstracts the
"work already queued" case of the underlying `queue_work` primitive.
Returns (C return value, whether the item was submitted). -/
def scsi_queue_work (shost : ScsiHost) (work_pending : Bool) : Int × Bool :=
  if shost.work_q = false then (-22, false)
  else if work_pending then (0, false)
  else (1, true)

/-- Function `scsi_flush_work` (hosts.c:647-658).  Returns whether the queue was
actually flushed (the C function returns void; the error case only
logs and returns without flushing). -/
def scsi_flush_work (shost : ScsiHost) : Bool :=
  if shost.work_q = false then false
  else true

/-- Which teardown steps of `scsi_remove_host` actually executed. -/
structure RemoveEffects where
  flushed_tmf : Bool
  forgot_host : Bool
  proc_removed : Bool
  transport_unregistered : Bool
  dev_unregistered : Bool
  gendev_deleted : Bool
deriving DecidableEq, Repr

/-- No teardown step executed. -/
def noRemoveEffects : RemoveEffects :=
  { flushed_tmf := false, forgot_host := false, proc_removed := false,
    transport_unregistered := false, dev_unregistered := false,
    gendev_deleted := false }

/-- The second transition phase of `scsi_remove_host` (hosts.c:178-179):
try `SHOST_DEL`; if that is illegal, force `SHOST_DEL_RECOVERY`.
`none` means the forced transition also failed, i.e. the `BUG_ON`
fired. -/
def removePhase2 (shost : ScsiHost) : Option ScsiHost :=
  let r1 := scsi_host_set_state shost SHOST_DEL
  if r1.1 ≠ 0 then
    let r2 := scsi_host_set_state r1.2 SHOST_DEL_RECOVERY
    if r2.1 ≠ 0 then none else some r2.2
  else some r1.2

/-- The teardown tail of `scsi_remove_host` (hosts.c:171-184), run once the
first transition phase succeeded: flush the TMF queue, forget child
devices, remove the proc entry, run the second transition phase, then
unregister the transport data and both device handles. -/
def scsi_remove_host_teardown (shost : ScsiHost) : Option (ScsiHost × RemoveEffects) :=
  let h1 := { shost with proc_added := false }
  match removePhase2 h1 with
  | none => none
  | some h2 =>
      some ({ h2 with dev_registered := false, dev_ref := h2.dev_ref - 1,
                      gendev_registered := false },
            { flushed_tmf := true, forgot_host := true, proc_removed := true,
              transport_unregistered := true, dev_unregistered := true,
              gendev_deleted := true })

/-- Function `scsi_remove_host` (hosts.c:157-185).  `none` models the fatal
`BUG_ON`. -/
def scsi_remove_host (shost : ScsiHost) : Option (ScsiHost × RemoveEffects) :=
  let r1 := scsi_host_set_state shost SHOST_CANCEL
  if r1.1 ≠ 0 then
    let r2 := scsi_host_set_state r1.2 SHOST_CANCEL_RECOVERY
    if r2.1 ≠ 0 then some (r2.2, noRemoveEffects)
    else scsi_remove_host_teardown r2.2
  else scsi_remove_host_teardown r1.2

/-- C1: `scsi_host_set_state` succeeds and commits the target state exactly
when the target equals the current state or the (current, target) pair is
in the specification's transition table; on every other pair it returns
`-EINVAL` and leaves the record unchanged (so in particular no transition
from a different state targets `SHOST_CREATED`, and `set_state(s, s)` is a
successful no-op for every state `s` including `SHOST_DEL`). -/
theorem set_state_matches_transition_table (h : ScsiHost) (s : ShostState) :
    scsi_host_set_state h s =
      if s = h.shost_state ∨ (h.shost_state, s) ∈ legalPairs
      then (0, { h with shost_state := s })
      else (-22, h) := by
  rcases h with ⟨st, _, _, _, _, _, _, _, _, _, _, _, _, _, _, _, _, _, _, _, _, _⟩
  cases st <;> cases s <;> simp [scsi_host_set_state, legalPairs]

/-- C10: `scsi_host_set_state` mutates only the `shost_state` field — every
other field is preserved on every call — and on an illegal transition
(nonzero return) the whole record, `shost_state` included, is unchanged. -/
theorem set_state_frame (h : ScsiHost) (s : ShostState) :
    (scsi_host_set_state h s).2.host_no = h.host_no ∧
    (scsi_host_set_state h s).2.can_queue = h.can_queue ∧
    (scsi_host_set_state h s).2.eh_deadline = h.eh_deadline ∧
    (scsi_host_set_state h s).2.use_blk_mq = h.use_blk_mq ∧
    (scsi_host_set_state h s).2.transportt_host_size = h.transportt_host_size ∧
    (scsi_host_set_state h s).2.transportt_create_work_queue
      = h.transportt_create_work_queue ∧
    (scsi_host_set_state h s).2.ehandler = h.ehandler ∧
    (scsi_host_set_state h s).2.tmf_work_q = h.tmf_work_q ∧
    (scsi_host_set_state h s).2.bqt = h.bqt ∧
    (scsi_host_set_state h s).2.mq_tags = h.mq_tags ∧
    (scsi_host_set_state h s).2.freelist = h.freelist ∧
    (scsi_host_set_state h s).2.gendev_registered = h.gendev_registered ∧
    (scsi_host_set_state h s).2.dev_registered = h.dev_registered ∧
    (scsi_host_set_state h s).2.shost_data = h.shost_data ∧
    (scsi_host_set_state h s).2.work_q = h.work_q ∧
    (scsi_host_set_state h s).2.sysfs_added = h.sysfs_added ∧
    (scsi_host_set_state h s).2.proc_added = h.proc_added ∧
    (scsi_host_set_state h s).2.pm_active = h.pm_active ∧
    (scsi_host_set_state h s).2.gendev_ref = h.gendev_ref ∧
    (scsi_host_set_state h s).2.dev_ref = h.dev_ref ∧
    (scsi_host_set_state h s).2.parent_ref = h.parent_ref ∧
    ((scsi_host_set_state h s).1 ≠ 0 → (scsi_host_set_state h s).2 = h) := by
  rcases h with ⟨st, _, _, _, _, _, _, _, _, _, _, _, _, _, _, _, _, _, _, _, _, _⟩
  cases st <;> cases s <;> simp [scsi_host_set_state]

/-- C10 witness: the frame property evaluated at a concrete host and an
illegal target. -/
theorem set_state_frame_witness :
    (scsi_host_set_state (hostWithState SHOST_DEL) SHOST_RUNNING).2.host_no
      = (hostWithState SHOST_DEL).host_no ∧
    ((scsi_host_set_state (hostWithState SHOST_DEL) SHOST_RUNNING).1 ≠ 0 →
      (scsi_host_set_state (hostWithState SHOST_DEL) SHOST_RUNNING).2
        = hostWithState SHOST_DEL) := by
  refine ⟨(set_state_frame (hostWithState SHOST_DEL) SHOST_RUNNING).1, ?_⟩
  exact (set_state_frame (hostWithState SHOST_DEL) SHOST_RUNNING).2.2.2.2.2.2.2.2.2.2.2.2.2.2.2.2.2.2.2.2.2

/-- C5: `scsi_host_get` on a host in the terminal `SHOST_DEL` state fails
and leaves the record (in particular its device reference count)
unchanged; on a host in any other state it increments the device
reference count by one, changes nothing else, and returns the host. -/
theorem host_get_del_fails_else_increments (h : ScsiHost) :
    scsi_host_get h =
      if h.shost_state = SHOST_DEL then (h, false)
      else ({ h with gendev_ref := h.gendev_ref + 1 }, true) := by
  by_cases hd : h.shost_state = SHOST_DEL <;>
    simp [scsi_host_get, get_device_gendev, hd]

/-- C8: on a host whose per-host serial work queue was never created,
`scsi_queue_work` returns `-EINVAL` without submitting the item, and
`scsi_flush_work` returns without flushing, for any pending-work state. -/
theorem work_facade_fails_without_queue (h : ScsiHost) (wp : Bool)
    (hq : h.work_q = false) :
    scsi_queue_work h wp = (-22, false) ∧ scsi_flush_work h = false := by
  simp [scsi_queue_work, scsi_flush_work, hq]

/-- C8 witness: the work facade evaluated on a concrete queue-less host. -/
theorem work_facade_fails_without_queue_witness :
    scsi_queue_work (hostWithState SHOST_RUNNING) false = (-22, false) ∧
    scsi_flush_work (hostWithState SHOST_RUNNING) = false :=
  work_facade_fails_without_queue (hostWithState SHOST_RUNNING) false rfl

/-- The set of states a record can occupy between the two transition
phases of removal, once the first phase committed `SHOST_CANCEL` or
`SHOST_CANCEL_RECOVERY`. -/
def removalClosedStates : List ShostState :=
  [SHOST_CANCEL, SHOST_CANCEL_RECOVERY, SHOST_DEL, SHOST_DEL_RECOVERY]

lemma strictStep_closed (s t : ShostState) (hst : StrictStep s t)
    (hs : s ∈ removalClosedStates) : t ∈ removalClosedStates := by
  revert hst hs
  revert s t
  decide

lemma reachable_closed (s t : ShostState) (hr : ReachableFrom s t)
    (hs : s ∈ removalClosedStates) : t ∈ removalClosedStates := by
  induction hr with
  | refl => exact hs
  | tail _ hbc ih => exact strictStep_closed _ _ hbc ih

/-- C4: once removal's first phase has put the record in `SHOST_CANCEL` or
`SHOST_CANCEL_RECOVERY`, the second phase always succeeds on any state
reachable from there by legal transitions — the `SHOST_DEL` attempt
succeeds, or else the forced `SHOST_DEL_RECOVERY` does — so the `BUG_ON`
branch is unreachable, and consequently `scsi_remove_host` never hits the
`BUG_ON` and any non-no-op removal leaves the state at `SHOST_DEL` or
`SHOST_DEL_RECOVERY`. -/
theorem remove_phase2_total :
    (∀ (h : ScsiHost) (s0 : ShostState),
        (s0 = SHOST_CANCEL ∨ s0 = SHOST_CANCEL_RECOVERY) →
        ReachableFrom s0 h.shost_state →
        ∃ h2, removePhase2 h = some h2 ∧
          (h2.shost_state = SHOST_DEL ∨ h2.shost_state = SHOST_DEL_RECOVERY)) ∧
    (∀ g : ScsiHost, ∃ out, scsi_remove_host g = some out ∧
        (out.2 ≠ noRemoveEffects →
          out.1.shost_state = SHOST_DEL ∨ out.1.shost_state = SHOST_DEL_RECOVERY)) := by
  constructor
  · intro h s0 h0 hr
    have hc : h.shost_state ∈ removalClosedStates := by
      refine reachable_closed s0 h.shost_state hr ?_
      rcases h0 with h0 | h0 <;> simp [h0, removalClosedStates]
    simp only [removalClosedStates, List.mem_cons, List.not_mem_nil, or_false] at hc
    rcases hc with hc | hc | hc | hc <;>
      simp [removePhase2, scsi_host_set_state, hc]
  · intro g
    cases hs : g.shost_state <;>
      simp [scsi_remove_host, scsi_remove_host_teardown, removePhase2,
            scsi_host_set_state, hs]

/-- C4 witness: the theorem applied to a record sitting at `SHOST_CANCEL`
(reachable from itself), and to a concrete host for the removal part. -/
theorem remove_phase2_total_witness :
    (∃ h2, removePhase2 (hostWithState SHOST_CANCEL) = some h2 ∧
      (h2.shost_state = SHOST_DEL ∨ h2.shost_state = SHOST_DEL_RECOVERY)) ∧
    (∃ out, scsi_remove_host (hostWithState SHOST_DEL) = some out ∧
      (out.2 ≠ noRemoveEffects →
        out.1.shost_state = SHOST_DEL ∨ out.1.shost_state = SHOST_DEL_RECOVERY)) :=
  ⟨remove_phase2_total.1 (hostWithState SHOST_CANCEL) SHOST_CANCEL
      (Or.inl rfl) Relation.ReflTransGen.refl,
   remove_phase2_total.2 (hostWithState SHOST_DEL)⟩

/-- C6: if neither the transition to `SHOST_CANCEL` nor the one to
`SHOST_CANCEL_RECOVERY` can be made from the record's current state (as
with `SHOST_DEL` or `SHOST_DEL_RECOVERY` after a prior removal),
`scsi_remove_host` returns immediately: no error, the record unchanged,
and none of the teardown steps executed. -/
theorem remove_is_silent_noop_when_transitions_illegal (h : ScsiHost)
    (h1 : (scsi_host_set_state h SHOST_CANCEL).1 ≠ 0)
    (h2 : (scsi_host_set_state h SHOST_CANCEL_RECOVERY).1 ≠ 0) :
    scsi_remove_host h = some (h, noRemoveEffects) := by
  cases hs : h.shost_state <;>
    simp [scsi_host_set_state, hs] at h1 h2 <;>
    simp [scsi_remove_host, scsi_host_set_state, hs]

/-- C6 witness: a second removal of a record already at `SHOST_DEL` is a
silent no-op. -/
theorem remove_is_silent_noop_witness :
    scsi_remove_host (hostWithState SHOST_DEL)
      = some (hostWithState SHOST_DEL, noRemoveEffects) :=
  remove_is_silent_noop_when_transitions_illegal (hostWithState SHOST_DEL)
    (by decide) (by decide)

/-- The resources `scsi_add_host_with_dma` can acquire: blk-mq tag sets,
a legacy block tag pool (`bqt`), the command freelist, the two
device-model registrations, the transport auxiliary data and the
per-host serial work queue. -/
inductive Res where
  | tags_mq
  | tags_bqt
  | freelist
  | gendev_reg
  | dev_reg
  | shost_data
  | work_q
deriving DecidableEq, Repr

/-- An acquisition or release event of one resource. -/
inductive Ev where
  | acq (r : Res)
  | rel (r : Res)
deriving DecidableEq, Repr

/-- Outcomes of the external calls made by `scsi_add_host_with_dma`.
Integer fields are the callee's return code (`0` = success); boolean
fields stand for pointer-returning callees (`true` = non-NULL). -/
structure AddHostEnv where
  scsi_mq_setup_tags : Int
  blk_init_tags_ok : Bool
  scsi_setup_command_freelist : Int
  device_add_gendev : Int
  device_add_dev : Int
  kzalloc_shost_data_ok : Bool
  create_workqueue_ok : Bool
  scsi_sysfs_add_host : Int
deriving DecidableEq, Repr

/-- Unwind label `out_destroy_tags` (hosts.c:307-309): only blk-mq tag
sets are destroyed here; a legacy `bqt` pool is left for the host's
final release callback. -/
def out_destroy_tags (error : Int) (h : ScsiHost) (tr : List Ev) :
    Int × ScsiHost × List Ev :=
  if shost_use_blk_mq h then
    (error, { h with mq_tags := false }, tr ++ [Ev.rel Res.tags_mq])
  else (error, h, tr)

/-- Unwind label `out_destroy_freelist` (hosts.c:305-306). -/
def out_destroy_freelist (error : Int) (h : ScsiHost) (tr : List Ev) :
    Int × ScsiHost × List Ev :=
  out_destroy_tags error { h with freelist := false } (tr ++ [Ev.rel Res.freelist])

/-- Unwind label `out_del_gendev` (hosts.c:298-304): drop the secondary
handle's reference, then delete the primary device registration. -/
def out_del_gendev (error : Int) (h : ScsiHost) (tr : List Ev) :
    Int × ScsiHost × List Ev :=
  out_destroy_freelist error
    { h with dev_ref := h.dev_ref - 1, gendev_registered := false }
    (tr ++ [Ev.rel Res.gendev_reg])

/-- Unwind label `out_del_dev` (hosts.c:296-297). -/
def out_del_dev (error : Int) (h : ScsiHost) (tr : List Ev) :
    Int × ScsiHost × List Ev :=
  out_del_gendev error { h with dev_registered := false } (tr ++ [Ev.rel Res.dev_reg])

/-- Unwind label `out_free_shost_data` (hosts.c:294-295); `kfree(NULL)` is
a no-op, so a release event is recorded only when the data was
allocated. -/
def out_free_shost_data (error : Int) (h : ScsiHost) (tr : List Ev) :
    Int × ScsiHost × List Ev :=
  out_del_dev error { h with shost_data := false }
    (tr ++ if h.shost_data then [Ev.rel Res.shost_data] else [])

/-- Unwind label `out_destroy_host` (hosts.c:291-293). -/
def out_destroy_host (error : Int) (h : ScsiHost) (tr : List Ev) :
    Int × ScsiHost × List Ev :=
  out_free_shost_data error
    (if h.work_q then { h with work_q := false } else h)
    (tr ++ if h.work_q then [Ev.rel Res.work_q] else [])

/-- Step 10 of publication (hosts.c:284-289): sysfs registration, then the
proc entry, then return 0. -/
def add_step_sysfs (h : ScsiHost) (env : AddHostEnv) (tr : List Ev) :
    Int × ScsiHost × List Ev :=
  if env.scsi_sysfs_add_host ≠ 0 then out_destroy_host env.scsi_sysfs_add_host h tr
  else (0, { h with sysfs_added := true, proc_added := true }, tr)

/-- Step 9 of publication (hosts.c:273-282): per-host serial work queue,
only when the transport template requests one. -/
def add_step_workq (h : ScsiHost) (env : AddHostEnv) (tr : List Ev) :
    Int × ScsiHost × List Ev :=
  if h.transportt_create_work_queue then
    if env.create_workqueue_ok then
      add_step_sysfs { h with work_q := true } env (tr ++ [Ev.acq Res.work_q])
    else out_free_shost_data (-22) h tr
  else add_step_sysfs h env tr

/-- Step 8 of publication (hosts.c:264-271): transport auxiliary data,
only when the transport template declares a nonzero size. -/
def add_step_shost_data (h : ScsiHost) (env : AddHostEnv) (tr : List Ev) :
    Int × ScsiHost × List Ev :=
  if h.transportt_host_size ≠ 0 then
    if env.kzalloc_shost_data_ok then
      add_step_workq { h with shost_data := true } env (tr ++ [Ev.acq Res.shost_data])
    else out_del_dev (-12) h tr
  else add_step_workq h env tr

/-- Step 7b of publication (hosts.c:260-262): register the secondary
device handle. -/
def add_step_dev (h : ScsiHost) (env : AddHostEnv) (tr : List Ev) :
    Int × ScsiHost × List Ev :=
  if env.device_add_dev ≠ 0 then out_del_gendev env.device_add_dev h tr
  else add_step_shost_data { h with dev_registered := true } env
    (tr ++ [Ev.acq Res.dev_reg])

/-- Steps 4-7a of publication (hosts.c:249-259): primary device-model
registration, power-management activation, the `CREATED → RUNNING`
transition, and the parent and primary-handle references. -/
def add_step_gendev (h : ScsiHost) (env : AddHostEnv) (tr : List Ev) :
    Int × ScsiHost × List Ev :=
  if env.device_add_gendev ≠ 0 then out_destroy_freelist env.device_add_gendev h tr
  else
    let h1 := { h with gendev_registered := true, pm_active := true }
    let h2 := (scsi_host_set_state h1 SHOST_RUNNING).2
    let h3 := { h2 with parent_ref := h2.parent_ref + 1,
                        gendev_ref := h2.gendev_ref + 1 }
    add_step_dev h3 env (tr ++ [Ev.acq Res.gendev_reg])

/-- Step 2 of publication (hosts.c:237-239): the command freelist. -/
def add_step_freelist (h : ScsiHost) (env : AddHostEnv) (tr : List Ev) :
    Int × ScsiHost × List Ev :=
  if env.scsi_setup_command_freelist ≠ 0 then
    out_destroy_tags env.scsi_setup_command_freelist h tr
  else add_step_gendev { h with freelist := true } env (tr ++ [Ev.acq Res.freelist])

/-- Function `scsi_add_host_with_dma` (hosts.c:201-312): the `can_queue` precheck
(`error` is initialised to `-EINVAL`), command-tag infrastructure (blk-mq
tag sets or a legacy `blk_init_tags` pool), then the remaining steps.
Returns (error code, updated record, acquire/release trace). -/
def scsi_add_host_with_dma (h : ScsiHost) (env : AddHostEnv) :
    Int × ScsiHost × List Ev :=
  if h.can_queue = 0 then (-22, h, [])
  else if shost_use_blk_mq h then
    if env.scsi_mq_setup_tags ≠ 0 then (env.scsi_mq_setup_tags, h, [])
    else add_step_freelist { h with mq_tags := true } env [Ev.acq Res.tags_mq]
  else
    if env.blk_init_tags_ok then
      add_step_freelist { h with bqt := true } env [Ev.acq Res.tags_bqt]
    else (-12, h, [])

/-- The resources acquired in a trace, in order. -/
def acqList (tr : List Ev) : List Res :=
  tr.filterMap (fun e => match e with | Ev.acq r => some r | Ev.rel _ => none)

/-- The resources released in a trace, in order. -/
def relList (tr : List Ev) : List Res :=
  tr.filterMap (fun e => match e with | Ev.acq _ => none | Ev.rel r => some r)

/-- Publication reached (and passed) the primary device-model
registration: the `can_queue` check, tag setup, freelist setup and
`device_add` on the primary handle all succeeded. -/
def reachedPrimaryReg (h : ScsiHost) (env : AddHostEnv) : Prop :=
  h.can_queue ≠ 0 ∧
  (h.use_blk_mq = true → env.scsi_mq_setup_tags = 0) ∧
  (h.use_blk_mq = false → env.blk_init_tags_ok = true) ∧
  env.scsi_setup_command_freelist = 0 ∧ env.device_add_gendev = 0

instance (h : ScsiHost) (env : AddHostEnv) : Decidable (reachedPrimaryReg h env) :=
  inferInstanceAs (Decidable (h.can_queue ≠ 0 ∧
    (h.use_blk_mq = true → env.scsi_mq_setup_tags = 0) ∧
    (h.use_blk_mq = false → env.blk_init_tags_ok = true) ∧
    env.scsi_setup_command_freelist = 0 ∧ env.device_add_gendev = 0))

@[simp] lemma shost_use_blk_mq_eq (h : ScsiHost) :
    shost_use_blk_mq h = h.use_blk_mq := rfl

lemma set_state_result (h : ScsiHost) (s : ShostState) :
    (scsi_host_set_state h s).2 =
      { h with shost_state := (scsi_host_set_state h s).2.shost_state } := by
  rcases h with ⟨st, _, _, _, _, _, _, _, _, _, _, _, _, _, _, _, _, _, _, _, _, _⟩
  cases st <;> cases s <;> rfl

@[simp] lemma set_state_keeps_use_blk_mq (h : ScsiHost) (s : ShostState) :
    (scsi_host_set_state h s).2.use_blk_mq = h.use_blk_mq := by
  rw [set_state_result]

@[simp] lemma set_state_keeps_host_size (h : ScsiHost) (s : ShostState) :
    (scsi_host_set_state h s).2.transportt_host_size = h.transportt_host_size := by
  rw [set_state_result]

@[simp] lemma set_state_keeps_create_work_queue (h : ScsiHost) (s : ShostState) :
    (scsi_host_set_state h s).2.transportt_create_work_queue
      = h.transportt_create_work_queue := by
  rw [set_state_result]

@[simp] lemma set_state_keeps_shost_data (h : ScsiHost) (s : ShostState) :
    (scsi_host_set_state h s).2.shost_data = h.shost_data := by
  rw [set_state_result]

@[simp] lemma set_state_keeps_work_q (h : ScsiHost) (s : ShostState) :
    (scsi_host_set_state h s).2.work_q = h.work_q := by
  rw [set_state_result]

lemma set_state_to_running (h : ScsiHost) (hc : h.shost_state = SHOST_CREATED) :
    scsi_host_set_state h SHOST_RUNNING = (0, { h with shost_state := SHOST_RUNNING }) := by
  rcases h with ⟨st, _, _, _, _, _, _, _, _, _, _, _, _, _, _, _, _, _, _, _, _, _⟩
  cases hc
  rfl

@[simp] lemma out_destroy_tags_err (e : Int) (h : ScsiHost) (tr : List Ev) :
    (out_destroy_tags e h tr).1 = e := by
  unfold out_destroy_tags; split <;> rfl

@[simp] lemma out_destroy_freelist_err (e : Int) (h : ScsiHost) (tr : List Ev) :
    (out_destroy_freelist e h tr).1 = e := by
  unfold out_destroy_freelist; simp

@[simp] lemma out_del_gendev_err (e : Int) (h : ScsiHost) (tr : List Ev) :
    (out_del_gendev e h tr).1 = e := by
  unfold out_del_gendev; simp

@[simp] lemma out_del_dev_err (e : Int) (h : ScsiHost) (tr : List Ev) :
    (out_del_dev e h tr).1 = e := by
  unfold out_del_dev; simp

@[simp] lemma out_free_shost_data_err (e : Int) (h : ScsiHost) (tr : List Ev) :
    (out_free_shost_data e h tr).1 = e := by
  unfold out_free_shost_data; simp

@[simp] lemma out_destroy_host_err (e : Int) (h : ScsiHost) (tr : List Ev) :
    (out_destroy_host e h tr).1 = e := by
  unfold out_destroy_host; simp

@[simp] lemma out_destroy_tags_state (e : Int) (h : ScsiHost) (tr : List Ev) :
    (out_destroy_tags e h tr).2.1.shost_state = h.shost_state := by
  unfold out_destroy_tags; split <;> rfl

@[simp] lemma out_destroy_freelist_state (e : Int) (h : ScsiHost) (tr : List Ev) :
    (out_destroy_freelist e h tr).2.1.shost_state = h.shost_state := by
  unfold out_destroy_freelist; simp

@[simp] lemma out_del_gendev_state (e : Int) (h : ScsiHost) (tr : List Ev) :
    (out_del_gendev e h tr).2.1.shost_state = h.shost_state := by
  unfold out_del_gendev; simp

@[simp] lemma out_del_dev_state (e : Int) (h : ScsiHost) (tr : List Ev) :
    (out_del_dev e h tr).2.1.shost_state = h.shost_state := by
  unfold out_del_dev; simp

@[simp] lemma out_free_shost_data_state (e : Int) (h : ScsiHost) (tr : List Ev) :
    (out_free_shost_data e h tr).2.1.shost_state = h.shost_state := by
  unfold out_free_shost_data; simp

@[simp] lemma out_destroy_host_state (e : Int) (h : ScsiHost) (tr : List Ev) :
    (out_destroy_host e h tr).2.1.shost_state = h.shost_state := by
  unfold out_destroy_host; split <;> simp

@[simp] lemma add_step_sysfs_state (h : ScsiHost) (env : AddHostEnv) (tr : List Ev) :
    (add_step_sysfs h env tr).2.1.shost_state = h.shost_state := by
  unfold add_step_sysfs; split_ifs <;> simp

@[simp] lemma add_step_workq_state (h : ScsiHost) (env : AddHostEnv) (tr : List Ev) :
    (add_step_workq h env tr).2.1.shost_state = h.shost_state := by
  unfold add_step_workq; split_ifs <;> simp

@[simp] lemma add_step_shost_data_state (h : ScsiHost) (env : AddHostEnv) (tr : List Ev) :
    (add_step_shost_data h env tr).2.1.shost_state = h.shost_state := by
  unfold add_step_shost_data; split_ifs <;> simp

@[simp] lemma add_step_dev_state (h : ScsiHost) (env : AddHostEnv) (tr : List Ev) :
    (add_step_dev h env tr).2.1.shost_state = h.shost_state := by
  unfold add_step_dev; split_ifs <;> simp

lemma add_step_gendev_state_ok (h : ScsiHost) (env : AddHostEnv) (tr : List Ev)
    (hc : h.shost_state = SHOST_CREATED) (hg : env.device_add_gendev = 0) :
    (add_step_gendev h env tr).2.1.shost_state = SHOST_RUNNING := by
  simp only [add_step_gendev]
  rw [if_neg (by simp [hg])]
  rw [add_step_dev_state]
  simp [set_state_to_running, hc]

lemma add_step_gendev_state_fail (h : ScsiHost) (env : AddHostEnv) (tr : List Ev)
    (hg : env.device_add_gendev ≠ 0) :
    (add_step_gendev h env tr).2.1.shost_state = h.shost_state := by
  simp only [add_step_gendev]
  rw [if_pos hg]
  simp

lemma add_step_freelist_state_ok (h : ScsiHost) (env : AddHostEnv) (tr : List Ev)
    (hc : h.shost_state = SHOST_CREATED)
    (hf : env.scsi_setup_command_freelist = 0) (hg : env.device_add_gendev = 0) :
    (add_step_freelist h env tr).2.1.shost_state = SHOST_RUNNING := by
  unfold add_step_freelist
  rw [if_neg (by simp [hf])]
  exact add_step_gendev_state_ok _ _ _ (by simp [hc]) hg

lemma add_step_freelist_state_fail (h : ScsiHost) (env : AddHostEnv) (tr : List Ev)
    (hng : ¬ (env.scsi_setup_command_freelist = 0 ∧ env.device_add_gendev = 0)) :
    (add_step_freelist h env tr).2.1.shost_state = h.shost_state := by
  unfold add_step_freelist
  by_cases hf : env.scsi_setup_command_freelist = 0
  · rw [if_neg (by simp [hf])]
    have hg : env.device_add_gendev ≠ 0 := fun hg => hng ⟨hf, hg⟩
    rw [add_step_gendev_state_fail _ _ _ hg]
  · rw [if_pos hf]
    simp

lemma publish_state_reached (h : ScsiHost) (env : AddHostEnv)
    (hc : h.shost_state = SHOST_CREATED) (hr : reachedPrimaryReg h env) :
    (scsi_add_host_with_dma h env).2.1.shost_state = SHOST_RUNNING := by
  obtain ⟨hq, hmqi, hbti, hf, hg⟩ := hr
  unfold scsi_add_host_with_dma
  rw [if_neg hq]
  by_cases hmq : shost_use_blk_mq h = true
  · rw [if_pos hmq]
    have ht : env.scsi_mq_setup_tags = 0 := hmqi hmq
    rw [if_neg (by simp [ht])]
    exact add_step_freelist_state_ok _ _ _ (by simp [hc]) hf hg
  · rw [if_neg hmq]
    have hbt : env.blk_init_tags_ok = true := hbti (by simpa using hmq)
    rw [if_pos hbt]
    exact add_step_freelist_state_ok _ _ _ (by simp [hc]) hf hg

lemma publish_state_not_reached (h : ScsiHost) (env : AddHostEnv)
    (hc : h.shost_state = SHOST_CREATED) (hnr : ¬ reachedPrimaryReg h env) :
    (scsi_add_host_with_dma h env).2.1.shost_state = SHOST_CREATED := by
  unfold scsi_add_host_with_dma
  by_cases hq : h.can_queue = 0
  · rw [if_pos hq]; exact hc
  rw [if_neg hq]
  by_cases hmq : shost_use_blk_mq h = true
  · rw [if_pos hmq]
    by_cases ht : env.scsi_mq_setup_tags = 0
    · rw [if_neg (by simp [ht])]
      have hng : ¬ (env.scsi_setup_command_freelist = 0 ∧ env.device_add_gendev = 0) := by
        intro hfg
        exact hnr ⟨hq, fun _ => ht,
          fun hff => by simp [shost_use_blk_mq, hff] at hmq, hfg.1, hfg.2⟩
      rw [add_step_freelist_state_fail _ _ _ hng]
      exact hc
    · rw [if_pos ht]; exact hc
  · rw [if_neg hmq]
    by_cases hbt : env.blk_init_tags_ok = true
    · rw [if_pos hbt]
      have hng : ¬ (env.scsi_setup_command_freelist = 0 ∧ env.device_add_gendev = 0) := by
        intro hfg
        exact hnr ⟨hq, fun htt => by simp [shost_use_blk_mq, htt] at hmq,
          fun _ => hbt, hfg.1, hfg.2⟩
      rw [add_step_freelist_state_fail _ _ _ hng]
      exact hc
    · rw [if_neg hbt]; exact hc

lemma publish_success_reached (h : ScsiHost) (env : AddHostEnv)
    (he : (scsi_add_host_with_dma h env).1 = 0) : reachedPrimaryReg h env := by
  unfold scsi_add_host_with_dma at he
  by_cases hq : h.can_queue = 0
  · rw [if_pos hq] at he; simp at he
  rw [if_neg hq] at he
  have core : ∀ (h1 : ScsiHost) (tr : List Ev), (add_step_freelist h1 env tr).1 = 0 →
      env.scsi_setup_command_freelist = 0 ∧ env.device_add_gendev = 0 := by
    intro h1 tr he1
    unfold add_step_freelist at he1
    by_cases hf : env.scsi_setup_command_freelist = 0
    · refine ⟨hf, ?_⟩
      rw [if_neg (by simp [hf])] at he1
      simp only [add_step_gendev] at he1
      by_cases hg : env.device_add_gendev = 0
      · exact hg
      · rw [if_pos hg] at he1
        simp at he1
        exact absurd he1 hg
    · rw [if_pos hf] at he1
      simp at he1
      exact absurd he1 hf
  by_cases hmq : shost_use_blk_mq h = true
  · rw [if_pos hmq] at he
    by_cases ht : env.scsi_mq_setup_tags = 0
    · rw [if_neg (by simp [ht])] at he
      obtain ⟨hf, hg⟩ := core _ _ he
      exact ⟨hq, fun _ => ht,
        fun hff => by simp [shost_use_blk_mq, hff] at hmq, hf, hg⟩
    · rw [if_pos ht] at he
      exact absurd he ht
  · rw [if_neg hmq] at he
    by_cases hbt : env.blk_init_tags_ok = true
    · rw [if_pos hbt] at he
      obtain ⟨hf, hg⟩ := core _ _ he
      exact ⟨hq, fun htt => by simp [shost_use_blk_mq, htt] at hmq,
        fun _ => hbt, hf, hg⟩
    · rw [if_neg hbt] at he
      simp at he

/-- C2: on a record in `SHOST_CREATED`, a successful publication leaves
the state `SHOST_RUNNING`; a failed publication leaves it `SHOST_RUNNING`
exactly when the failing step came after the `CREATED → RUNNING`
transition (i.e. the `can_queue` check, tag setup, freelist setup and
primary device registration all succeeded), and exactly `SHOST_CREATED`
otherwise — never any other state. -/
theorem publish_state_created_or_running (h : ScsiHost) (env : AddHostEnv)
    (hc : h.shost_state = SHOST_CREATED) :
    ((scsi_add_host_with_dma h env).1 = 0 →
      (scsi_add_host_with_dma h env).2.1.shost_state = SHOST_RUNNING) ∧
    ((scsi_add_host_with_dma h env).1 ≠ 0 →
      (((scsi_add_host_with_dma h env).2.1.shost_state = SHOST_RUNNING ↔
          reachedPrimaryReg h env) ∧
       ((scsi_add_host_with_dma h env).2.1.shost_state = SHOST_CREATED ↔
          ¬ reachedPrimaryReg h env))) := by
  refine ⟨fun he => publish_state_reached h env hc (publish_success_reached h env he),
    fun _ => ⟨⟨?_, publish_state_reached h env hc⟩,
              ⟨?_, publish_state_not_reached h env hc⟩⟩⟩
  · intro hst
    by_contra hnr
    rw [publish_state_not_reached h env hc hnr] at hst
    exact absurd hst (by decide)
  · intro hst
    intro hr
    rw [publish_state_reached h env hc hr] at hst
    exact absurd hst (by decide)

/-- C2 witness: publication of a concrete freshly created record with a
late (sysfs) failure leaves the state `SHOST_RUNNING`. -/
theorem publish_state_created_or_running_witness :
    ((scsi_add_host_with_dma (hostWithState SHOST_CREATED)
        { scsi_mq_setup_tags := 0, blk_init_tags_ok := true,
          scsi_setup_command_freelist := 0, device_add_gendev := 0,
          device_add_dev := 0, kzalloc_shost_data_ok := true,
          create_workqueue_ok := true, scsi_sysfs_add_host := -12 }).1 ≠ 0) ∧
    (scsi_add_host_with_dma (hostWithState SHOST_CREATED)
        { scsi_mq_setup_tags := 0, blk_init_tags_ok := true,
          scsi_setup_command_freelist := 0, device_add_gendev := 0,
          device_add_dev := 0, kzalloc_shost_data_ok := true,
          create_workqueue_ok := true, scsi_sysfs_add_host := -12
          }).2.1.shost_state = SHOST_RUNNING := by
  refine ⟨by decide, ?_⟩
  have h2 := (publish_state_created_or_running (hostWithState SHOST_CREATED)
    { scsi_mq_setup_tags := 0, blk_init_tags_ok := true,
      scsi_setup_command_freelist := 0, device_add_gendev := 0,
      device_add_dev := 0, kzalloc_shost_data_ok := true,
      create_workqueue_ok := true, scsi_sysfs_add_host := -12 } rfl).2
  exact ((h2 (by decide)).1).2 (by decide)

@[simp] lemma acqList_nil : acqList [] = [] := rfl

@[simp] lemma acqList_acq_cons (r : Res) (tr : List Ev) :
    acqList (Ev.acq r :: tr) = r :: acqList tr := rfl

@[simp] lemma acqList_rel_cons (r : Res) (tr : List Ev) :
    acqList (Ev.rel r :: tr) = acqList tr := rfl

@[simp] lemma acqList_append (t1 t2 : List Ev) :
    acqList (t1 ++ t2) = acqList t1 ++ acqList t2 := by
  simp [acqList, List.filterMap_append]

@[simp] lemma relList_nil : relList [] = [] := rfl

@[simp] lemma relList_acq_cons (r : Res) (tr : List Ev) :
    relList (Ev.acq r :: tr) = relList tr := rfl

@[simp] lemma relList_rel_cons (r : Res) (tr : List Ev) :
    relList (Ev.rel r :: tr) = r :: relList tr := rfl

@[simp] lemma relList_append (t1 t2 : List Ev) :
    relList (t1 ++ t2) = relList t1 ++ relList t2 := by
  simp [relList, List.filterMap_append]

@[simp] lemma out_destroy_tags_trace (e : Int) (h : ScsiHost) (tr : List Ev) :
    (out_destroy_tags e h tr).2.2 =
      tr ++ (if h.use_blk_mq then [Ev.rel Res.tags_mq] else []) := by
  by_cases hb : h.use_blk_mq = true <;> simp [out_destroy_tags, hb]

@[simp] lemma out_destroy_freelist_trace (e : Int) (h : ScsiHost) (tr : List Ev) :
    (out_destroy_freelist e h tr).2.2 =
      tr ++ ([Ev.rel Res.freelist] ++
        (if h.use_blk_mq then [Ev.rel Res.tags_mq] else [])) := by
  simp [out_destroy_freelist]

@[simp] lemma out_del_gendev_trace (e : Int) (h : ScsiHost) (tr : List Ev) :
    (out_del_gendev e h tr).2.2 =
      tr ++ ([Ev.rel Res.gendev_reg] ++ ([Ev.rel Res.freelist] ++
        (if h.use_blk_mq then [Ev.rel Res.tags_mq] else []))) := by
  simp [out_del_gendev]

@[simp] lemma out_del_dev_trace (e : Int) (h : ScsiHost) (tr : List Ev) :
    (out_del_dev e h tr).2.2 =
      tr ++ ([Ev.rel Res.dev_reg] ++ ([Ev.rel Res.gendev_reg] ++
        ([Ev.rel Res.freelist] ++
          (if h.use_blk_mq then [Ev.rel Res.tags_mq] else [])))) := by
  simp [out_del_dev]

@[simp] lemma out_free_shost_data_trace (e : Int) (h : ScsiHost) (tr : List Ev) :
    (out_free_shost_data e h tr).2.2 =
      tr ++ ((if h.shost_data then [Ev.rel Res.shost_data] else []) ++
        ([Ev.rel Res.dev_reg] ++ ([Ev.rel Res.gendev_reg] ++
          ([Ev.rel Res.freelist] ++
            (if h.use_blk_mq then [Ev.rel Res.tags_mq] else []))))) := by
  simp [out_free_shost_data]

@[simp] lemma out_destroy_host_trace (e : Int) (h : ScsiHost) (tr : List Ev) :
    (out_destroy_host e h tr).2.2 =
      tr ++ ((if h.work_q then [Ev.rel Res.work_q] else []) ++
        ((if h.shost_data then [Ev.rel Res.shost_data] else []) ++
          ([Ev.rel Res.dev_reg] ++ ([Ev.rel Res.gendev_reg] ++
            ([Ev.rel Res.freelist] ++
              (if h.use_blk_mq then [Ev.rel Res.tags_mq] else [])))))) := by
  by_cases hw : h.work_q = true <;> simp [out_destroy_host, hw]

lemma add_step_sysfs_unwind (h : ScsiHost) (env : AddHostEnv) (tr : List Ev)
    (hrel : relList tr = [])
    (hacq : acqList tr =
      (if h.use_blk_mq then [Res.tags_mq] else [Res.tags_bqt]) ++
      [Res.freelist, Res.gendev_reg, Res.dev_reg] ++
      (if h.shost_data then [Res.shost_data] else []) ++
      (if h.work_q then [Res.work_q] else []))
    (he : (add_step_sysfs h env tr).1 ≠ 0) :
    relList (add_step_sysfs h env tr).2.2 =
      ((acqList (add_step_sysfs h env tr).2.2).filter
        (fun r => decide (r ≠ Res.tags_bqt))).reverse := by
  unfold add_step_sysfs at he ⊢
  by_cases hs : env.scsi_sysfs_add_host ≠ 0
  · rw [if_pos hs]
    by_cases hw : h.work_q = true <;> by_cases hd : h.shost_data = true <;>
      by_cases hb : h.use_blk_mq = true <;>
        simp_all [List.filter_append]
  · rw [if_neg hs] at he
    simp at he

lemma add_step_workq_unwind (h : ScsiHost) (env : AddHostEnv) (tr : List Ev)
    (hrel : relList tr = []) (hwq : h.work_q = false)
    (hacq : acqList tr =
      (if h.use_blk_mq then [Res.tags_mq] else [Res.tags_bqt]) ++
      [Res.freelist, Res.gendev_reg, Res.dev_reg] ++
      (if h.shost_data then [Res.shost_data] else []))
    (he : (add_step_workq h env tr).1 ≠ 0) :
    relList (add_step_workq h env tr).2.2 =
      ((acqList (add_step_workq h env tr).2.2).filter
        (fun r => decide (r ≠ Res.tags_bqt))).reverse := by
  unfold add_step_workq at he ⊢
  by_cases hcw : h.transportt_create_work_queue = true
  · rw [if_pos hcw] at he ⊢
    by_cases hok : env.create_workqueue_ok = true
    · rw [if_pos hok] at he ⊢
      exact add_step_sysfs_unwind _ _ _ (by simp [hrel])
        (by simp [hacq, List.append_assoc]) he
    · rw [if_neg hok]
      by_cases hd : h.shost_data = true <;> by_cases hb : h.use_blk_mq = true <;>
        simp_all [List.filter_append]
  · rw [if_neg hcw] at he ⊢
    exact add_step_sysfs_unwind _ _ _ hrel
      (by simp [hacq, hwq, List.append_assoc]) he

lemma add_step_shost_data_unwind (h : ScsiHost) (env : AddHostEnv) (tr : List Ev)
    (hrel : relList tr = []) (hwq : h.work_q = false) (hsd : h.shost_data = false)
    (hacq : acqList tr =
      (if h.use_blk_mq then [Res.tags_mq] else [Res.tags_bqt]) ++
      [Res.freelist, Res.gendev_reg, Res.dev_reg])
    (he : (add_step_shost_data h env tr).1 ≠ 0) :
    relList (add_step_shost_data h env tr).2.2 =
      ((acqList (add_step_shost_data h env tr).2.2).filter
        (fun r => decide (r ≠ Res.tags_bqt))).reverse := by
  unfold add_step_shost_data at he ⊢
  by_cases hhs : h.transportt_host_size ≠ 0
  · rw [if_pos hhs] at he ⊢
    by_cases hk : env.kzalloc_shost_data_ok = true
    · rw [if_pos hk] at he ⊢
      exact add_step_workq_unwind _ _ _ (by simp [hrel]) (by simp [hwq])
        (by simp [hacq, List.append_assoc]) he
    · rw [if_neg hk]
      by_cases hb : h.use_blk_mq = true <;> simp_all [List.filter_append]
  · rw [if_neg hhs] at he ⊢
    exact add_step_workq_unwind _ _ _ hrel hwq
      (by simp [hacq, hsd, List.append_assoc]) he

lemma add_step_dev_unwind (h : ScsiHost) (env : AddHostEnv) (tr : List Ev)
    (hrel : relList tr = []) (hwq : h.work_q = false) (hsd : h.shost_data = false)
    (hacq : acqList tr =
      (if h.use_blk_mq then [Res.tags_mq] else [Res.tags_bqt]) ++
      [Res.freelist, Res.gendev_reg])
    (he : (add_step_dev h env tr).1 ≠ 0) :
    relList (add_step_dev h env tr).2.2 =
      ((acqList (add_step_dev h env tr).2.2).filter
        (fun r => decide (r ≠ Res.tags_bqt))).reverse := by
  unfold add_step_dev at he ⊢
  by_cases hdv : env.device_add_dev ≠ 0
  · rw [if_pos hdv]
    by_cases hb : h.use_blk_mq = true <;> simp_all [List.filter_append]
  · rw [if_neg hdv] at he ⊢
    exact add_step_shost_data_unwind _ _ _ (by simp [hrel]) (by simp [hwq])
      (by simp [hsd]) (by simp [hacq, List.append_assoc]) he

lemma add_step_gendev_unwind (h : ScsiHost) (env : AddHostEnv) (tr : List Ev)
    (hrel : relList tr = []) (hwq : h.work_q = false) (hsd : h.shost_data = false)
    (hacq : acqList tr =
      (if h.use_blk_mq then [Res.tags_mq] else [Res.tags_bqt]) ++ [Res.freelist])
    (he : (add_step_gendev h env tr).1 ≠ 0) :
    relList (add_step_gendev h env tr).2.2 =
      ((acqList (add_step_gendev h env tr).2.2).filter
        (fun r => decide (r ≠ Res.tags_bqt))).reverse := by
  simp only [add_step_gendev] at he ⊢
  by_cases hg : env.device_add_gendev ≠ 0
  · rw [if_pos hg]
    by_cases hb : h.use_blk_mq = true <;> simp_all [List.filter_append]
  · rw [if_neg hg] at he ⊢
    exact add_step_dev_unwind _ _ _ (by simp [hrel]) (by simp [hwq]) (by simp [hsd])
      (by simp [hacq, List.append_assoc]) he

lemma add_step_freelist_unwind (h : ScsiHost) (env : AddHostEnv) (tr : List Ev)
    (hrel : relList tr = []) (hwq : h.work_q = false) (hsd : h.shost_data = false)
    (hacq : acqList tr =
      (if h.use_blk_mq then [Res.tags_mq] else [Res.tags_bqt]))
    (he : (add_step_freelist h env tr).1 ≠ 0) :
    relList (add_step_freelist h env tr).2.2 =
      ((acqList (add_step_freelist h env tr).2.2).filter
        (fun r => decide (r ≠ Res.tags_bqt))).reverse := by
  unfold add_step_freelist at he ⊢
  by_cases hf : env.scsi_setup_command_freelist ≠ 0
  · rw [if_pos hf]
    by_cases hb : h.use_blk_mq = true <;> simp_all [List.filter_append]
  · rw [if_neg hf] at he ⊢
    exact add_step_gendev_unwind _ _ _ (by simp [hrel]) (by simp [hwq])
      (by simp [hsd]) (by simp [hacq, List.append_assoc]) he

/-- A fresh non-blk-mq record about to be published. -/
def bqtHost : ScsiHost := hostWithState SHOST_CREATED

/-- An environment in which the legacy tag pool is allocated and the very
next step (the command freelist) fails. -/
def bqtEnv : AddHostEnv :=
  { scsi_mq_setup_tags := 0, blk_init_tags_ok := true,
    scsi_setup_command_freelist := -12, device_add_gendev := 0,
    device_add_dev := 0, kzalloc_shost_data_ok := true,
    create_workqueue_ok := true, scsi_sysfs_add_host := 0 }

/-- C3 counterexample: on a non-blk-mq host, when the command-freelist
step fails right after the legacy block-tag pool (`bqt`) was allocated,
`scsi_add_host_with_dma` returns the error while the tag pool is still
held — it is not released before the error is returned (the unwind label
only destroys blk-mq tag sets; the `bqt` pool is freed only later in
`scsi_host_dev_release`).  This refutes the claim that the command-tag
infrastructure is always released before the error return. -/
theorem publish_failure_bqt_not_released :
    (scsi_add_host_with_dma bqtHost bqtEnv).1 ≠ 0 ∧
    Res.tags_bqt ∈ acqList (scsi_add_host_with_dma bqtHost bqtEnv).2.2 ∧
    ¬ Res.tags_bqt ∈ relList (scsi_add_host_with_dma bqtHost bqtEnv).2.2 ∧
    (scsi_add_host_with_dma bqtHost bqtEnv).2.1.bqt = true := by
  decide

/-- C3 (amended): whenever publication fails on a record that enters with
no serial work queue and no transport auxiliary data, every resource
acquired by the earlier steps of that call is released before the error
is returned, in reverse acquisition order — with the exception of a
legacy (non-blk-mq) block-tag pool, which the unwind path does not free
(it is destroyed only in the host's final release callback); reference
counts and the `RUNNING` state left by a failure after primary
registration are likewise retained, as documented. -/
theorem publish_failure_releases_reverse (h : ScsiHost) (env : AddHostEnv)
    (hwq : h.work_q = false) (hsd : h.shost_data = false)
    (he : (scsi_add_host_with_dma h env).1 ≠ 0) :
    relList (scsi_add_host_with_dma h env).2.2 =
      ((acqList (scsi_add_host_with_dma h env).2.2).filter
        (fun r => decide (r ≠ Res.tags_bqt))).reverse := by
  unfold scsi_add_host_with_dma at he ⊢
  by_cases hq : h.can_queue = 0
  · rw [if_pos hq]
    simp
  rw [if_neg hq] at he ⊢
  by_cases hb : shost_use_blk_mq h = true
  · rw [if_pos hb] at he ⊢
    by_cases ht : env.scsi_mq_setup_tags ≠ 0
    · rw [if_pos ht]
      simp
    · rw [if_neg ht] at he ⊢
      refine add_step_freelist_unwind _ _ _ (by simp) (by simp [hwq])
        (by simp [hsd]) ?_ he
      simp at hb
      simp [hb]
  · rw [if_neg hb] at he ⊢
    by_cases hbt : env.blk_init_tags_ok = true
    · rw [if_pos hbt] at he ⊢
      refine add_step_freelist_unwind _ _ _ (by simp) (by simp [hwq])
        (by simp [hsd]) ?_ he
      simp at hb
      simp [hb]
    · rw [if_neg hbt]
      simp

/-- C3 witness: the amended release property evaluated on a concrete
failing publication (blk-mq host, freelist failure). -/
theorem publish_failure_releases_reverse_witness :
    relList (scsi_add_host_with_dma
        { bqtHost with use_blk_mq := true } bqtEnv).2.2 =
      ((acqList (scsi_add_host_with_dma
          { bqtHost with use_blk_mq := true } bqtEnv).2.2).filter
        (fun r => decide (r ≠ Res.tags_bqt))).reverse :=
  publish_failure_releases_reverse { bqtHost with use_blk_mq := true } bqtEnv
    rfl rfl (by decide)

/-- Constant `INT_MAX` of a 32-bit C `int`. -/
def INT_MAX : Int := 2 ^ 31 - 1

/-- C `int` assignment semantics: wrap to the signed 32-bit range. -/
def int32wrap (x : Int) : Int := (x + 2 ^ 31) % 2 ^ 32 - 2 ^ 31

/-- The `eh_deadline` conversion in `scsi_host_alloc` (hosts.c:442-450):
disabled (`-1`) when the module tunable is `-1` or the template has no
`eh_host_reset_handler`; otherwise the tunable is cast to `ulong`
(64-bit), multiplied by `HZ` and compared against `INT_MAX` — clamping
to `INT_MAX` with a warning on overflow — else the plain `int` product.
Returns (eh_deadline, warning emitted). -/
def computeEhDeadline (shost_eh_deadline : Int) (HZ : Nat)
    (has_reset_handler : Bool) : Int × Bool :=
  if shost_eh_deadline = -1 ∨ has_reset_handler = false then (-1, false)
  else if ((shost_eh_deadline % 2 ^ 64).toNat * HZ) % 2 ^ 64 > INT_MAX.toNat then
    (INT_MAX, true)
  else (int32wrap (shost_eh_deadline * HZ), false)

/-- The template fields `scsi_host_alloc` reads that matter here. -/
structure ScsiHostTemplate where
  can_queue : Int
  eh_host_reset_handler : Bool
  disable_blk_mq : Bool
deriving DecidableEq, Repr

/-- Outcomes of the external calls made by `scsi_host_alloc`. -/
structure AllocEnv where
  kzalloc_ok : Bool
  kthread_ok : Bool
  tmf_workqueue_ok : Bool
deriving DecidableEq, Repr

/-- Function `scsi_host_alloc` (hosts.c:388-518): a zeroed record in
`SHOST_CREATED` with the template-copied configuration, the identity
from the global counter, the `eh_deadline` conversion, and a blank
transport template; then the error-handler thread and the TMF work
queue are started (either failure unwinds and returns NULL).  Fields
this development does not need (addressing limits, DMA boundary, ...)
are omitted. -/
def scsi_host_alloc (sht : ScsiHostTemplate) (next_host_no : Nat)
    (shost_eh_deadline : Int) (HZ : Nat) (scsi_use_blk_mq : Bool)
    (env : AllocEnv) : Option ScsiHost :=
  if env.kzalloc_ok = false then none
  else
    let shost : ScsiHost :=
      { shost_state := SHOST_CREATED
        host_no := next_host_no
        can_queue := sht.can_queue
        eh_deadline :=
          (computeEhDeadline shost_eh_deadline HZ sht.eh_host_reset_handler).1
        use_blk_mq := scsi_use_blk_mq && !sht.disable_blk_mq
        transportt_host_size := 0
        transportt_create_work_queue := false
        ehandler := false, tmf_work_q := false,
        bqt := false, mq_tags := false, freelist := false,
        gendev_registered := false, dev_registered := false,
        shost_data := false, work_q := false, sysfs_added := false,
        proc_added := false, pm_active := false,
        gendev_ref := 1, dev_ref := 1, parent_ref := 0 }
    if env.kthread_ok = false then none
    else
      let shost1 := { shost with ehandler := true }
      if env.tmf_workqueue_ok = false then none
      else some { shost1 with tmf_work_q := true }

/-- C7: allocation does not reject a template with `can_queue = 0` — it
returns a record in `SHOST_CREATED` — and publishing that record fails
with `-EINVAL` before acquiring any resource (empty trace) and before
any state transition (the record is returned unchanged, still
`SHOST_CREATED`). -/
theorem zero_can_queue_rejected_at_publish (sht : ScsiHostTemplate)
    (nh : Nat) (ehd : Int) (HZ : Nat) (umq : Bool)
    (aenv : AllocEnv) (penv : AddHostEnv)
    (hq : sht.can_queue = 0)
    (h1 : aenv.kzalloc_ok = true) (h2 : aenv.kthread_ok = true)
    (h3 : aenv.tmf_workqueue_ok = true) :
    (∃ h : ScsiHost, scsi_host_alloc sht nh ehd HZ umq aenv = some h) ∧
    (∀ h : ScsiHost, scsi_host_alloc sht nh ehd HZ umq aenv = some h →
      h.shost_state = SHOST_CREATED ∧ h.can_queue = 0 ∧
      scsi_add_host_with_dma h penv = (-22, h, [])) := by
  constructor
  · have hiss : (scsi_host_alloc sht nh ehd HZ umq aenv).isSome = true := by
      simp only [scsi_host_alloc]
      rw [if_neg (by simp [h1]), if_neg (by simp [h2]), if_neg (by simp [h3])]
      rfl
    exact Option.isSome_iff_exists.mp hiss
  · intro h hh
    simp only [scsi_host_alloc] at hh
    rw [if_neg (by simp [h1]), if_neg (by simp [h2]), if_neg (by simp [h3])] at hh
    injection hh with hh
    subst hh
    refine ⟨rfl, hq, ?_⟩
    simp [scsi_add_host_with_dma, hq]

/-- C7 witness: the zero-`can_queue` scenario on a concrete template,
with every allocation-time external call succeeding. -/
theorem zero_can_queue_rejected_at_publish_witness :
    (∃ h : ScsiHost, scsi_host_alloc
        { can_queue := 0, eh_host_reset_handler := false, disable_blk_mq := false }
        0 (-1) 250 false
        { kzalloc_ok := true, kthread_ok := true, tmf_workqueue_ok := true }
        = some h) ∧
    (∀ h : ScsiHost, scsi_host_alloc
        { can_queue := 0, eh_host_reset_handler := false, disable_blk_mq := false }
        0 (-1) 250 false
        { kzalloc_ok := true, kthread_ok := true, tmf_workqueue_ok := true }
        = some h →
      h.shost_state = SHOST_CREATED ∧ h.can_queue = 0 ∧
      scsi_add_host_with_dma h bqtEnv = (-22, h, [])) :=
  zero_can_queue_rejected_at_publish
    { can_queue := 0, eh_host_reset_handler := false, disable_blk_mq := false }
    0 (-1) 250 false
    { kzalloc_ok := true, kthread_ok := true, tmf_workqueue_ok := true }
    bqtEnv rfl rfl rfl rfl

lemma int32wrap_eq_self (x : Int) (h1 : 0 ≤ x) (h2 : x ≤ 2 ^ 31 - 1) :
    int32wrap x = x := by
  unfold int32wrap
  omega

/-- C9 counterexample: with a reset handler present, tunable `-2` and
tick rate 250, the code clamps to `INT_MAX` and warns — the comparison
is made after a cast to unsigned 64-bit, so every negative tunable
other than `-1` trips the overflow branch — whereas the claim's
"otherwise the deadline is exactly seconds times the tick rate"
predicts `-500`. -/
theorem eh_deadline_negative_clamped :
    computeEhDeadline (-2) 250 true = (2 ^ 31 - 1, true) ∧
    (-2 : Int) * 250 ≠ 2 ^ 31 - 1 := by
  decide

/-- C9 (amended): within the `int` range of the tunable and for any
positive tick rate up to `2^31`: the deadline is disabled (`-1`, no
warning) when the tunable is `-1` or there is no reset handler; any
other negative tunable is clamped to `INT_MAX` with a warning (unsigned
comparison); a nonnegative tunable whose product with the tick rate
exceeds `INT_MAX` is clamped to `INT_MAX` with a warning; otherwise the
deadline is exactly the product, with no warning. -/
theorem eh_deadline_conversion (s : Int) (HZ : Nat) (hr : Bool)
    (hs1 : -2 ^ 31 ≤ s) (hs2 : s < 2 ^ 31) (hz1 : 0 < HZ) (hz2 : HZ ≤ 2 ^ 31) :
    ((s = -1 ∨ hr = false) → computeEhDeadline s HZ hr = (-1, false)) ∧
    (s ≠ -1 → hr = true → s < 0 →
      computeEhDeadline s HZ hr = (INT_MAX, true)) ∧
    (hr = true → 0 ≤ s → s * HZ > INT_MAX →
      computeEhDeadline s HZ hr = (INT_MAX, true)) ∧
    (hr = true → 0 ≤ s → s * HZ ≤ INT_MAX →
      computeEhDeadline s HZ hr = (s * HZ, false)) := by
  have hintmax : INT_MAX.toNat = 2 ^ 31 - 1 := rfl
  refine ⟨?_, ?_, ?_, ?_⟩
  · intro hcase
    unfold computeEhDeadline
    rw [if_pos hcase]
  · intro hne hhr hneg
    unfold computeEhDeadline
    rw [if_neg (by simp [hhr]; omega)]
    rw [if_pos ?pos]
    case pos =>
      have hu : (s % 2 ^ 64).toNat = 2 ^ 64 - (-s).toNat := by omega
      have ha1 : 2 ≤ (-s).toNat := by omega
      have ha2 : (-s).toNat ≤ 2 ^ 31 := by omega
      have hK1 : 2 * 1 ≤ (-s).toNat * HZ := Nat.mul_le_mul ha1 hz1
      have hK2 : (-s).toNat * HZ ≤ 2 ^ 31 * 2 ^ 31 := Nat.mul_le_mul ha2 hz2
      have hN : (s % 2 ^ 64).toNat * HZ = 2 ^ 64 * HZ - (-s).toNat * HZ := by
        rw [hu, Nat.sub_mul]
      rw [hN, hintmax]
      omega
  · intro hhr h0 hgt
    unfold computeEhDeadline
    rw [if_neg (by simp [hhr]; omega)]
    rw [if_pos ?pos2]
    case pos2 =>
      have hu : (s % 2 ^ 64).toNat = s.toNat := by omega
      have hb1 : s.toNat ≤ 2 ^ 31 := by omega
      have hP2 : s.toNat * HZ ≤ 2 ^ 31 * 2 ^ 31 := Nat.mul_le_mul hb1 hz2
      have hcast : (↑(s.toNat * HZ) : Int) = s * HZ := by
        push_cast [Int.toNat_of_nonneg h0]
        ring
      have hPgt : 2 ^ 31 - 1 < s.toNat * HZ := by
        have : (2 ^ 31 - 1 : Int) < ↑(s.toNat * HZ) := by
          rw [hcast]
          exact lt_of_le_of_lt (by norm_num [INT_MAX]) hgt
        omega
      rw [hu, hintmax]
      omega
  · intro hhr h0 hle
    unfold computeEhDeadline
    rw [if_neg (by simp [hhr]; omega)]
    rw [if_neg ?neg]
    case neg =>
      have hu : (s % 2 ^ 64).toNat = s.toNat := by omega
      have hb1 : s.toNat ≤ 2 ^ 31 := by omega
      have hP2 : s.toNat * HZ ≤ 2 ^ 31 * 2 ^ 31 := Nat.mul_le_mul hb1 hz2
      have hcast : (↑(s.toNat * HZ) : Int) = s * HZ := by
        push_cast [Int.toNat_of_nonneg h0]
        ring
      have hPle : s.toNat * HZ ≤ 2 ^ 31 - 1 := by
        have : (↑(s.toNat * HZ) : Int) ≤ 2 ^ 31 - 1 := by
          rw [hcast]
          exact le_trans hle (by norm_num [INT_MAX])
        omega
      rw [hu, hintmax]
      omega
    rw [int32wrap_eq_self (s * HZ) (by positivity)
      (le_trans hle (by norm_num [INT_MAX]))]

/-- C9 witness: the amended conversion evaluated at tunable 10, tick
rate 250, with a reset handler: the deadline is exactly 2500. -/
theorem eh_deadline_conversion_witness :
    ((10 : Int) = -1 ∨ true = false → computeEhDeadline 10 250 true = (-1, false)) ∧
    ((10 : Int) ≠ -1 → true = true → (10 : Int) < 0 →
      computeEhDeadline 10 250 true = (INT_MAX, true)) ∧
    (true = true → (0 : Int) ≤ 10 → (10 : Int) * 250 > INT_MAX →
      computeEhDeadline 10 250 true = (INT_MAX, true)) ∧
    (true = true → (0 : Int) ≤ 10 → (10 : Int) * 250 ≤ INT_MAX →
      computeEhDeadline 10 250 true = ((10 : Int) * 250, false)) :=
  eh_deadline_conversion 10 250 true (by norm_num) (by norm_num)
    (by norm_num) (by norm_num)
